import Mathlib

/-!
Shallow embedding of the `Herramientas_tasadores` repository (Spanish cadastre
downloader and overlay analyzer) and proofs about its specification claims.

Python floats are modelled as exact rationals (`ℚ`); Python byte strings and
text strings as lists of code points (`List ℕ`); fallible Python code as
`Except PyErr`-valued computations, with `try/except` blocks placed exactly
where the source places them.  Network and filesystem responses are abstract
environment values, so every theorem quantifies over all possible responses.
-/

/-- Model of a raised Python exception. -/
inductive PyErr where
  | exc (msg : String)
  deriving DecidableEq

/-- Message carried by a modelled Python exception (used in f-strings). -/
def pyErrMsg : PyErr → String
  | .exc m => m

/-- True when an `Except` computation did not raise. -/
def exceptIsOk {ε α : Type} : Except ε α → Bool
  | .ok _ => true
  | .error _ => false

/-- Model of Python `round(x, d)` on exact rationals.  Python rounds ties to
even; this model rounds ties up, which agrees with Python everywhere except at
exact half-way points, and no theorem below evaluates it at a tie. -/
def roundTo (d : ℕ) (x : ℚ) : ℚ := ((round (x * 10 ^ d) : ℤ) : ℚ) / 10 ^ d

/-- Code points of a Lean string literal, used to feed the Python-string model. -/
def strBytes (s : String) : List ℕ := s.toList.map Char.toNat

/-- Python `str.isspace` for the ASCII whitespace stripped by `str.strip()`. -/
def pyIsSpaceCode (n : ℕ) : Bool :=
  n == 32 || n == 9 || n == 10 || n == 13 || n == 11 || n == 12

/-- Python `str.strip()`: drop leading and trailing whitespace. -/
def pyStrip (s : List ℕ) : List ℕ :=
  ((s.dropWhile pyIsSpaceCode).reverse.dropWhile pyIsSpaceCode).reverse

/-- Python `str.replace(' ', '')`: remove every space character. -/
def pyRemoveSpaces (s : List ℕ) : List ℕ := s.filter (fun n => n != 32)

/-- Python `str.upper()` on one ASCII code point. -/
def pyUpperCode (n : ℕ) : ℕ := if 97 ≤ n ∧ n ≤ 122 then n - 32 else n

/-- Whether a code point is an ASCII lowercase letter. -/
def isLowerCode (n : ℕ) : Bool := decide (97 ≤ n ∧ n ≤ 122)

/-- Boolean list-prefix test, helper for the byte-containment test. -/
def isPrefixB : List ℕ → List ℕ → Bool
  | [], _ => true
  | _ :: _, [] => false
  | a :: as, b :: bs => a == b && isPrefixB as bs

/-- Python `marker in content` on byte strings: contiguous-substring test. -/
def containsSub (marker : List ℕ) : List ℕ → Bool
  | [] => isPrefixB marker []
  | c :: cs => isPrefixB marker (c :: cs) || containsSub marker cs

/-- Byte string `b'ExceptionReport'` checked by the geometry fetchers. -/
def exceptionReportMarker : List ℕ := strBytes "ExceptionReport"

/-- Byte string `b'Exception'` checked by `catastro_engine.descargar_geometrias`. -/
def exceptionMarker : List ℕ := strBytes "Exception"

/-- Abstract HTTP response: status code and body bytes. -/
structure HttpResp where
  status : ℕ
  content : List ℕ
  deriving DecidableEq

/-- Coordinates as returned by `catastro_engine.obtener_coordenadas`
(`{'lon', 'lat', 'src'}`). -/
structure EngineCoords where
  lon : ℚ
  lat : ℚ
  src : String
  deriving DecidableEq

/-- Coordinates as returned by the complete downloader
(`{'lon', 'lat', 'srs'}`). -/
structure CompleteCoords where
  lon : ℚ
  lat : ℚ
  srs : String
  deriving DecidableEq

/-- The `geo` object of the JSON coordinate service: optional `xcen`/`ycen`
fields, `some` meaning present and parseable as a float. -/
structure GeoFields where
  xcen : Option ℚ
  ycen : Option ℚ
  deriving DecidableEq

/-- Parsed body of the JSON coordinate service: the `geo` key may be absent. -/
structure JsonData where
  geo : Option GeoFields
  deriving DecidableEq

/-- Response of the JSON coordinate endpoint; parsing the body (`r.json()`)
may itself raise. -/
structure JsonResp where
  status : ℕ
  body : Except PyErr JsonData

/-- Parsed XML coordinate document: the namespaced `coord/geo` element with
its `xcen`/`ycen` leaves, or absent. -/
structure XmlDoc where
  coordGeo : Option GeoFields

/-- Response of the XML coordinate endpoint; parsing may raise. -/
structure XmlResp where
  status : ℕ
  doc : Except PyErr XmlDoc

/-- Environment of one coordinate-resolution run: the outcome of the GML
extraction step (complete downloader only) and the two network responses.
The transport itself may raise, hence `Except`. -/
structure CoordEnv where
  gmlCoords : Option CompleteCoords
  jsonResp : Except PyErr JsonResp
  xmlResp : Except PyErr XmlResp

namespace CatastroEngine

/-- `catastro_engine.CatastroDownloader.limpiar_referencia`:
`ref.replace(' ', '').strip().upper()`. -/
def limpiar_referencia (ref : List ℕ) : List ℕ :=
  (pyStrip (pyRemoveSpaces ref)).map pyUpperCode

/-- Query parameters built by `catastro_engine.descargar_geometrias`. -/
def descargarGeometriasParams (ref : String) : List (String × String) :=
  [("service", "wfs"), ("version", "2.0.0"), ("request", "GetFeature"),
   ("STOREDQUERY_ID", "GetParcel"), ("refcat", ref), ("srsname", "EPSG:4326")]

/-- Acceptance logic of `catastro_engine.descargar_geometrias`: HTTP 200 and
no `b'Exception'` in the body, otherwise `None`. -/
def descargar_geometrias (r : HttpResp) : Option (List ℕ) :=
  if r.status = 200 ∧ containsSub exceptionMarker r.content = false then
    some r.content
  else none

/-- JSON step of `catastro_engine.obtener_coordenadas`: on HTTP 200 it
checks `'geo' in data` and then reads `xcen`/`ycen` (a missing field raises
`KeyError`, swallowed by the bare `except`). -/
def jsonAttempt (resp : Except PyErr JsonResp) : Option EngineCoords :=
  match resp with
  | .error _ => none
  | .ok r =>
    if r.status = 200 then
      match r.body with
      | .error _ => none
      | .ok d =>
        match d.geo with
        | none => none
        | some g =>
          match g.xcen, g.ycen with
          | some x, some y => some ⟨x, y, "JSON"⟩
          | _, _ => none
    else none

/-- XML step of `catastro_engine.obtener_coordenadas`. -/
def xmlAttempt (resp : Except PyErr XmlResp) : Option EngineCoords :=
  match resp with
  | .error _ => none
  | .ok r =>
    if r.status = 200 then
      match r.doc with
      | .error _ => none
      | .ok d =>
        match d.coordGeo with
        | none => none
        | some g =>
          match g.xcen, g.ycen with
          | some x, some y => some ⟨x, y, "XML"⟩
          | _, _ => none
    else none

/-- `catastro_engine.obtener_coordenadas`: JSON first, then XML.  The second
component records whether the XML endpoint was queried. -/
def obtener_coordenadas (env : CoordEnv) : Option EngineCoords × Bool :=
  match jsonAttempt env.jsonResp with
  | some c => (some c, false)
  | none => (xmlAttempt env.xmlResp, true)

end CatastroEngine

namespace CatastroCompleteDownloader

/-- `catastro_complete_downloader.limpiar_referencia`:
`ref.replace(' ', '').strip()` — note: no `.upper()`. -/
def limpiar_referencia (ref : List ℕ) : List ℕ := pyStrip (pyRemoveSpaces ref)

/-- Query parameters built by `descargar_parcela_gml`. -/
def parcelaGmlParams (ref : String) : List (String × String) :=
  [("service", "wfs"), ("version", "2.0.0"), ("request", "GetFeature"),
   ("STOREDQUERY_ID", "GetParcel"), ("refcat", ref), ("srsname", "EPSG:25830")]

/-- Query parameters built by `descargar_edificio_gml`. -/
def edificioGmlParams (ref : String) : List (String × String) :=
  [("service", "wfs"), ("version", "2.0.0"), ("request", "GetFeature"),
   ("STOREDQUERY_ID", "GetBuilding"), ("refcat", ref), ("srsname", "EPSG:25830")]

/-- Acceptance logic of `descargar_parcela_gml`: HTTP 200 and no
`b'ExceptionReport'` in the body, otherwise `None`. -/
def descargar_parcela_gml (r : HttpResp) : Option (List ℕ) :=
  if r.status = 200 ∧ containsSub exceptionReportMarker r.content = false then
    some r.content
  else none

/-- Acceptance logic of `descargar_edificio_gml`: additionally requires
`len(r.content) > 500`. -/
def descargar_edificio_gml (r : HttpResp) : Option (List ℕ) :=
  if r.status = 200 ∧ containsSub exceptionReportMarker r.content = false
      ∧ 500 < r.content.length then
    some r.content
  else none

/-- JSON step of the complete downloader's `obtener_coordenadas` (MÉTODO 2):
checks `'geo' in data and 'xcen' in data['geo'] and 'ycen' in data['geo']`. -/
def jsonAttempt (resp : Except PyErr JsonResp) : Option CompleteCoords :=
  match resp with
  | .error _ => none
  | .ok r =>
    if r.status = 200 then
      match r.body with
      | .error _ => none
      | .ok d =>
        match d.geo with
        | none => none
        | some g =>
          match g.xcen, g.ycen with
          | some x, some y => some ⟨x, y, "EPSG:4326"⟩
          | _, _ => none
    else none

/-- XML step of the complete downloader's `obtener_coordenadas` (MÉTODO 3). -/
def xmlAttempt (resp : Except PyErr XmlResp) : Option CompleteCoords :=
  match resp with
  | .error _ => none
  | .ok r =>
    if r.status = 200 then
      match r.doc with
      | .error _ => none
      | .ok d =>
        match d.coordGeo with
        | none => none
        | some g =>
          match g.xcen, g.ycen with
          | some x, some y => some ⟨x, y, "EPSG:4326"⟩
          | _, _ => none
    else none

/-- The complete downloader's `obtener_coordenadas`: GML file first (MÉTODO
1, outcome abstracted as `env.gmlCoords`), then JSON, then XML.  The second
component records whether the XML endpoint was queried. -/
def obtener_coordenadas (env : CoordEnv) : Option CompleteCoords × Bool :=
  match env.gmlCoords with
  | some c => (some c, false)
  | none =>
    match jsonAttempt env.jsonResp with
    | some c => (some c, false)
    | none => (xmlAttempt env.xmlResp, true)

end CatastroCompleteDownloader

namespace AnalizadorUrbanistico

/-- Query parameters built by `urban_analysis._descargar_parcela_gml`. -/
def parcelaGmlParams (ref : String) : List (String × String) :=
  [("service", "wfs"), ("version", "2.0.0"), ("request", "GetFeature"),
   ("STOREDQUERY_ID", "GetParcel"), ("refcat", ref), ("srsname", "EPSG:25830")]

/-- Acceptance logic of `urban_analysis._descargar_parcela_gml`. -/
def descargar_parcela_gml (r : HttpResp) : Option (List ℕ) :=
  if r.status ≠ 200 then none
  else if containsSub exceptionReportMarker r.content then none
  else some r.content

end AnalizadorUrbanistico

namespace CatastroCompleteDownloader

/-- One WMS `GetMap` request as built by `descargar_capa_wms`. -/
structure WmsRequest where
  service : String
  version : String
  request : String
  layers : String
  styles : String
  srs : String
  bbox : ℚ × ℚ × ℚ × ℚ
  width : ℕ
  height : ℕ
  format : String
  transparent : String
  deriving DecidableEq

/-- `calcular_bbox`: fixed degrees-per-meter approximation around a point. -/
def calcular_bbox (lon lat buffer_metros : ℚ) : ℚ × ℚ × ℚ × ℚ :=
  let buffer_lon := buffer_metros / 85000
  let buffer_lat := buffer_metros / 111000
  (lon - buffer_lon, lat - buffer_lat, lon + buffer_lon, lat + buffer_lat)

/-- Request parameters of `descargar_capa_wms` for one layer. -/
def descargar_capa_wms_request (lon lat : ℚ) (layers : String)
    (bbox_metros : ℚ) : WmsRequest :=
  { service := "WMS", version := "1.1.1", request := "GetMap",
    layers := layers, styles := "", srs := "EPSG:4326",
    bbox := calcular_bbox lon lat bbox_metros,
    width := 1600, height := 1600,
    format := "image/png", transparent := "TRUE" }

/-- The `capas_wms` dictionary of the downloader, in insertion order. -/
def capas_wms : List (String × String) :=
  [("catastro", "Catastro"), ("ortofoto", "PNOA"),
   ("callejero", "Callejero"), ("hidrografia", "Hidrografia")]

/-- All WMS requests issued by `descargar_capas_multiples` for one
coordinate point (default 200 m buffer, as in the source). -/
def descargar_capas_multiples_requests (lon lat : ℚ) : List WmsRequest :=
  capas_wms.map (fun nl => descargar_capa_wms_request lon lat nl.2 200)

/-- Parcel data extracted by `analizar_afectaciones` from the GML file:
emptiness of the GeoDataFrame, the exact metric area (`EPSG:25830`) and the
centroid coordinates. -/
structure ParcelaData where
  isEmpty : Bool
  area_m2 : ℚ
  centroid_lat : ℚ
  centroid_lon : ℚ
  centroid_utm_x : ℚ
  centroid_utm_y : ℚ
  deriving DecidableEq

/-- Abstract outcome of one WFS layer query inside `analizar_afectaciones`.
`falla` models an exception raised anywhere in the per-layer body (network,
`gpd.read_file`, `gpd.overlay`, ...).  `interAreaRaw` is
`inter.geometry.area.sum()` in the parcel CRS; `interArea25830` is the
affected area after reprojection to `EPSG:25830`. -/
structure WfsResp where
  falla : Option PyErr
  status : ℕ
  contentLen : ℕ
  hasExceptionReport : Bool
  featuresEmpty : Bool
  interEmpty : Bool
  interAreaRaw : ℚ
  interArea25830 : ℚ
  numElementos : ℕ
  nombres : Option (List String)
  deriving DecidableEq

/-- One entry of `afectaciones['afectaciones_detectadas']`. -/
structure Afec where
  tipo : String
  descripcion : String
  detectado : Bool
  area_afectada_m2 : ℚ
  porcentaje_parcela : ℚ
  numero_elementos : ℕ
  nombres : Option (List String)
  deriving DecidableEq

/-- The `afectaciones` result dictionary of `analizar_afectaciones`. -/
structure Afectaciones where
  referencia : String
  area_parcela_m2 : ℚ
  latitud : ℚ
  longitud : ℚ
  utm_x : ℚ
  utm_y : ℚ
  huso_utm : ℕ
  afectaciones_detectadas : List Afec
  deriving DecidableEq

/-- The `servicios_wfs` catalog (name, description), in insertion order. -/
def servicios_wfs : List (String × String) :=
  [("espacios_naturales", "Espacios Naturales Protegidos"),
   ("zonas_inundables", "Zonas de Riesgo de Inundación SNCZI"),
   ("dph", "Dominio Público Hidráulico"),
   ("carreteras", "Red de Carreteras")]

/-- Body of the per-service loop of `analizar_afectaciones` (the code inside
the inner `try`).  `area_parcela_m2` is the already-rounded value stored in
`afectaciones['area_parcela_m2']`, which is the divisor of the percentage.
The numerator `area_afect` is a numpy `float64` (a pandas `Series.sum()`),
so even a `0.0` divisor raises no exception: the quotient is an IEEE
infinity (or NaN), emitted with a `RuntimeWarning`, and the entry is still
appended.  Those special float values have no exact-rational counterpart;
the model uses Lean's `x / 0 = 0` convention in that corner, so with a zero
divisor only the control flow (no exception raised, entry appended) is
meaningful here, not the percentage value. -/
def procesar_servicio (area_parcela_m2 : ℚ) (tipo descripcion : String)
    (resp : WfsResp) : Except PyErr (Option Afec) :=
  match resp.falla with
  | some e => .error e
  | none =>
    if resp.status = 200 ∧ 500 < resp.contentLen
        ∧ resp.hasExceptionReport = false then
      if resp.featuresEmpty = false then
        if resp.interEmpty = false ∧ 0 < resp.interAreaRaw then
          .ok (some { tipo := tipo, descripcion := descripcion,
                      detectado := true,
                      area_afectada_m2 := roundTo 2 resp.interArea25830,
                      porcentaje_parcela :=
                        roundTo 2 (resp.interArea25830 / area_parcela_m2 * 100),
                      numero_elementos := resp.numElementos,
                      nombres := resp.nombres })
        else .ok none
      else .ok none
    else .ok none

/-- One iteration of the per-service loop including its
`except Exception: logger.error(...)` handler: a raised exception is logged
and the loop continues, contributing no entry. -/
def capaStep (area_parcela_m2 : ℚ) (tipo descripcion : String)
    (resp : WfsResp) : Option Afec :=
  match procesar_servicio area_parcela_m2 tipo descripcion resp with
  | .ok o => o
  | .error _ => none

/-- Environment of one `analizar_afectaciones` run: the module-level
GeoPandas flag, the reference, the outcome of reading the parcel GML and the
WFS response for each configured service name. -/
structure AfectEnv where
  geopandasAvailable : Bool
  referencia : String
  parcelaRead : Except PyErr ParcelaData
  respuestas : String → WfsResp

/-- `analizar_afectaciones`: returns `None` when GeoPandas is unavailable,
when the parcel file is empty, or when the outer `try` catches an exception
(e.g. the parcel GML cannot be read); otherwise the result dictionary with
the rounded parcel area and the per-service detections. -/
def analizar_afectaciones (env : AfectEnv) : Option Afectaciones :=
  if env.geopandasAvailable = false then none
  else
    match env.parcelaRead with
    | .error _ => none
    | .ok p =>
      if p.isEmpty then none
      else
        let area_redondeada := roundTo 2 p.area_m2
        some { referencia := env.referencia,
               area_parcela_m2 := area_redondeada,
               latitud := roundTo 6 p.centroid_lat,
               longitud := roundTo 6 p.centroid_lon,
               utm_x := roundTo 2 p.centroid_utm_x,
               utm_y := roundTo 2 p.centroid_utm_y,
               huso_utm := 30,
               afectaciones_detectadas :=
                 servicios_wfs.filterMap
                   (fun sd => capaStep area_redondeada sd.1 sd.2
                     (env.respuestas sd.1)) }

/-- Detections list of an optional analysis result (empty when `None`). -/
def afectacionesOf (o : Option Afectaciones) : List Afec :=
  match o with
  | some a => a.afectaciones_detectadas
  | none => []

/-- Environment of one `descargar_todo_completo` run.  Each `...Result` /
`...Resp` field is the outcome of one step's fallible body; `Except.error`
models that the body raised, and the step function catches it exactly where
the source has a `try/except`.  `mkdirs` is the aggregate outcome of the
directory-creation calls the run performs outside every `try/except` — the
orchestrator's own `ref_dir.mkdir` and per-type folder `mkdir`s and each
helper's pre-`try` `mkdir` — whose failure (a filesystem fault, or a
pathological reference name) propagates uncaught out of the call. -/
structure OrchEnv where
  geopandas : Bool
  mkdirs : Except PyErr Unit
  consultaResult : Except PyErr Bool
  parcelaResp : Except PyErr HttpResp
  coordsEnv : CoordEnv
  capasResult : Except PyErr Bool
  edificioResp : Except PyErr HttpResp
  fichaResult : Except PyErr Bool
  afectEnv : AfectEnv
  sigpacResult : Except PyErr Bool
  zipResult : Except PyErr String

/-- A step function that catches every exception of its body and reports
failure (`False` / falsy) instead, as the step helpers of the downloader do. -/
def runCaught (e : Except PyErr Bool) : Bool :=
  match e with
  | .ok b => b
  | .error _ => false

/-- The step sequence of `descargar_todo_completo` with its per-step
booleans (`resultados`), producing `(exitosos == total, zip_path)`.  The
`capas_wms` key is only added when coordinates were resolved, exactly as in
the source.  Each step catches its own body's exceptions, so this part is
total. -/
def descargar_todo_completo_steps (env : OrchEnv) : Bool × Option String :=
  let consulta_ok := runCaught env.consultaResult
  let archivo_parcela : Option (List ℕ) :=
    match env.parcelaResp with
    | .error _ => none
    | .ok r => descargar_parcela_gml r
  let coordsEnv : CoordEnv :=
    { env.coordsEnv with
      gmlCoords := if archivo_parcela.isSome then env.coordsEnv.gmlCoords
                   else none }
  let coords := (obtener_coordenadas coordsEnv).1
  let resultados₀ := [("consulta_descriptiva", consulta_ok),
                      ("parcela_gml", archivo_parcela.isSome)]
  let resultados₁ :=
    if coords.isSome then
      resultados₀ ++ [("capas_wms", runCaught env.capasResult)]
    else resultados₀
  let edificio_ok :=
    (match env.edificioResp with
     | .error _ => none
     | .ok r => descargar_edificio_gml r).isSome
  let afect_ok :=
    if archivo_parcela.isSome ∧ env.geopandas then
      (analizar_afectaciones
        { env.afectEnv with geopandasAvailable := env.geopandas }).isSome
    else false
  let sigpac_ok := if env.geopandas then runCaught env.sigpacResult else false
  let zip : Option String :=
    match env.zipResult with
    | .error _ => none
    | .ok p => some p
  let resultados := resultados₁ ++
    [("edificio_gml", edificio_ok),
     ("ficha_catastral", runCaught env.fichaResult),
     ("analisis_afectaciones", afect_ok),
     ("pdf_sigpac", sigpac_ok),
     ("zip_creado", zip.isSome)]
  ((resultados.filter (fun kv => kv.2)).length == resultados.length, zip)

/-- `descargar_todo_completo`: the directory-creation calls (outside every
`try/except`) either all succeed, after which the caught step sequence runs
to completion, or the first failure among them propagates uncaught out of
the call as a raised exception. -/
def descargar_todo_completo (env : OrchEnv) : Except PyErr (Bool × Option String) :=
  match env.mkdirs with
  | .error e => .error e
  | .ok _ => .ok (descargar_todo_completo_steps env)

/-- Python `dict` assignment `d[k] = v`: overwrite in place when the key is
present, otherwise append. -/
def pyDictInsert {β : Type} (d : List (String × β)) (k : String) (v : β) :
    List (String × β) :=
  if k ∈ d.map Prod.fst then
    d.map (fun p => if p.1 = k then (k, v) else p)
  else d ++ [(k, v)]

/-- The loop of `procesar_lote`: each `descargar_todo_completo` call's
result is stored under its reference; there is no `try/except` in the loop,
so an exception raised by a call propagates out of the batch call. -/
def procesar_lote_loop (envOf : String → OrchEnv) :
    List (String × (Bool × Option String)) → List String →
      Except PyErr (List (String × (Bool × Option String)))
  | d, [] => .ok d
  | d, ref :: rest =>
    match descargar_todo_completo (envOf ref) with
    | .error e => .error e
    | .ok v => procesar_lote_loop envOf (pyDictInsert d ref v) rest

/-- `procesar_lote`: one `descargar_todo_completo` call per reference,
results collected into a dict keyed by the reference. -/
def procesar_lote (envOf : String → OrchEnv) (refs : List String) :
    Except PyErr (List (String × (Bool × Option String))) :=
  procesar_lote_loop envOf [] refs

end CatastroCompleteDownloader

namespace VectorAnalyzer

/-- Outcome of `_analizar_capa_especifica` for one layer when it does not
raise: detection flag and exact affected area. -/
structure CapaOutcome where
  afectado : Bool
  area_m2 : ℚ
  deriving DecidableEq

/-- One discovered layer file and the (fallible) outcome of analyzing it:
`Except.error` models an exception raised by the per-layer body
(`_analizar_capa_especifica` / `_generar_captura_mapa`), which the source
does not catch. -/
structure CapaEnv where
  nombre : String
  body : Except PyErr CapaOutcome

/-- One entry of the `results` list built by `ejecutar_analisis_completo`. -/
structure CapaResult where
  capa : String
  titulo : String
  afectado : Bool
  area_afectada : ℚ
  mapa_url : String
  deriving DecidableEq

/-- The two return shapes of `ejecutar_analisis_completo`: a dictionary with
an `"error"` key, or a list of per-layer result dictionaries. -/
inductive AnalysisRet where
  | errorDict (msg : String)
  | results (rs : List CapaResult)
  deriving DecidableEq

/-- Environment of one `ejecutar_analisis_completo` run: the outcome of
reading the parcel file and the discovered layer catalog. -/
structure VAEnv where
  referencia : String
  parcelaRead : Except PyErr Unit
  capas : List CapaEnv

/-- The `_cargar_config_titulos` table. -/
def config_titulos : List (String × String) :=
  [("vias_pecuarias", "Vías Pecuarias y Servidumbres"),
   ("inundabilidad", "Riesgo de Inundación (PRTR)"),
   ("urbanismo", "Calificación Urbanística Vigente"),
   ("proteccion_ambiental", "Espacios Naturales Protegidos")]

/-- `self.config_titulos.get(nombre_capa, nombre_capa)`. -/
def tituloDe (nombre : String) : String :=
  (config_titulos.lookup nombre).getD nombre

/-- The relative map URL returned by `_generar_captura_mapa`. -/
def mapaUrl (referencia nombre : String) : String :=
  "/outputs/" ++ referencia ++ "/" ++ referencia ++ "_" ++ nombre ++ ".png"

/-- The layer loop of `ejecutar_analisis_completo`.  There is no `try` around
the loop body, so the first raising layer propagates and the results built so
far are lost. -/
def runCapas (referencia : String) : List CapaEnv → Except PyErr (List CapaResult)
  | [] => .ok []
  | c :: rest =>
    match c.body with
    | .error e => .error e
    | .ok out =>
      match runCapas referencia rest with
      | .error e => .error e
      | .ok rs =>
        .ok ({ capa := c.nombre, titulo := tituloDe c.nombre,
               afectado := out.afectado,
               area_afectada := roundTo 2 out.area_m2,
               mapa_url := mapaUrl referencia c.nombre } :: rs)

/-- `ejecutar_analisis_completo`: a read failure is caught and turned into an
error dictionary; a per-layer exception is not caught and escapes to the
caller (`Except.error`); otherwise the list of per-layer results. -/
def ejecutar_analisis_completo (env : VAEnv) : Except PyErr AnalysisRet :=
  match env.parcelaRead with
  | .error e =>
    .ok (.errorDict ("Error leyendo archivo de parcela: " ++ pyErrMsg e))
  | .ok _ =>
    match runCapas env.referencia env.capas with
    | .error e => .error e
    | .ok rs => .ok (.results rs)

/-- Whether a call outcome is the list-of-results shape. -/
def isResultsRet : Except PyErr AnalysisRet → Bool
  | .ok (.results _) => true
  | _ => false

/-- Whether a call outcome is the error-dictionary shape. -/
def isErrorDictRet : Except PyErr AnalysisRet → Bool
  | .ok (.errorDict _) => true
  | _ => false

end VectorAnalyzer

open CatastroCompleteDownloader in
/-- A WFS response with no matching features (service answered 404). -/
def respMiss : WfsResp :=
  { falla := none, status := 404, contentLen := 0, hasExceptionReport := false,
    featuresEmpty := true, interEmpty := true, interAreaRaw := 0,
    interArea25830 := 0, numElementos := 0, nombres := none }

open CatastroCompleteDownloader in
/-- A degenerate parcel of exact metric area `0.014 m²`, whose rounded area
(`0.01`) is smaller than the affected area. -/
def pC1 : ParcelaData :=
  { isEmpty := false, area_m2 := 7/500, centroid_lat := 0, centroid_lon := 0,
    centroid_utm_x := 0, centroid_utm_y := 0 }

open CatastroCompleteDownloader in
/-- A WFS response whose intersection covers the whole of `pC1`. -/
def respFullC1 : WfsResp :=
  { falla := none, status := 200, contentLen := 600,
    hasExceptionReport := false, featuresEmpty := false, interEmpty := false,
    interAreaRaw := 1, interArea25830 := 7/500, numElementos := 1,
    nombres := none }

open CatastroCompleteDownloader in
/-- Analysis environment in which the first service fully covers `pC1`. -/
def envC1 : AfectEnv :=
  { geopandasAvailable := true, referencia := "X", parcelaRead := .ok pC1,
    respuestas := fun n =>
      if n = "espacios_naturales" then respFullC1 else respMiss }

open CatastroCompleteDownloader in
/-- A well-behaved parcel of area `100 m²`. -/
def pC1w : ParcelaData :=
  { isEmpty := false, area_m2 := 100, centroid_lat := 0, centroid_lon := 0,
    centroid_utm_x := 0, centroid_utm_y := 0 }

open CatastroCompleteDownloader in
/-- A WFS response whose intersection covers half of `pC1w`. -/
def respHalf : WfsResp :=
  { falla := none, status := 200, contentLen := 600,
    hasExceptionReport := false, featuresEmpty := false, interEmpty := false,
    interAreaRaw := 1, interArea25830 := 50, numElementos := 1,
    nombres := none }

open CatastroCompleteDownloader in
/-- Analysis environment in which the first service covers half of `pC1w`. -/
def envC1w : AfectEnv :=
  { geopandasAvailable := true, referencia := "W", parcelaRead := .ok pC1w,
    respuestas := fun n =>
      if n = "espacios_naturales" then respHalf else respMiss }

open CatastroCompleteDownloader in
/-- The detection entry produced for `envC1w` (50 % affectation). -/
def afC1w : Afec :=
  { tipo := "espacios_naturales",
    descripcion := "Espacios Naturales Protegidos", detectado := true,
    area_afectada_m2 := 50, porcentaje_parcela := 50, numero_elementos := 1,
    nombres := none }

open CatastroCompleteDownloader in
/-- A degenerate parcel of exact metric area `0.004 m²`: rounding it to two
decimals yields `0.0`, so the percentage divides by zero. -/
def pC10 : ParcelaData :=
  { isEmpty := false, area_m2 := 1/250, centroid_lat := 0, centroid_lon := 0,
    centroid_utm_x := 0, centroid_utm_y := 0 }

open CatastroCompleteDownloader in
/-- A WFS response with a positive intersection over `pC10`. -/
def respC10 : WfsResp :=
  { falla := none, status := 200, contentLen := 600,
    hasExceptionReport := false, featuresEmpty := false, interEmpty := false,
    interAreaRaw := 1, interArea25830 := 1/250, numElementos := 1,
    nombres := none }

open CatastroCompleteDownloader in
/-- Analysis environment for the division-by-zero scenario. -/
def envC10 : AfectEnv :=
  { geopandasAvailable := true, referencia := "Z", parcelaRead := .ok pC10,
    respuestas := fun n =>
      if n = "espacios_naturales" then respC10 else respMiss }

open CatastroCompleteDownloader in
/-- A WFS layer whose per-layer body raises. -/
def respFailC5 : WfsResp :=
  { falla := some (.exc "read error"), status := 0, contentLen := 0,
    hasExceptionReport := false, featuresEmpty := true, interEmpty := true,
    interAreaRaw := 0, interArea25830 := 0, numElementos := 0,
    nombres := none }

open CatastroCompleteDownloader in
/-- Analysis environment in which `carreteras` raises while
`espacios_naturales` detects a 50 % affectation over `pC1w`. -/
def envC5 : AfectEnv :=
  { geopandasAvailable := true, referencia := "V", parcelaRead := .ok pC1w,
    respuestas := fun n =>
      if n = "carreteras" then respFailC5
      else if n = "espacios_naturales" then respHalf
      else respMiss }

/-- Vector-analyzer environment in which the first local layer raises and a
second, analyzable layer follows. -/
def envC5cex : VectorAnalyzer.VAEnv :=
  { referencia := "R", parcelaRead := .ok (),
    capas := [{ nombre := "inundabilidad", body := .error (.exc "overlay failed") },
              { nombre := "urbanismo", body := .ok { afectado := true, area_m2 := 120 } }] }

/-- Vector-analyzer environment whose parcel file cannot be read. -/
def envC9err : VectorAnalyzer.VAEnv :=
  { referencia := "E", parcelaRead := .error (.exc "boom"), capas := [] }

/-- Vector-analyzer environment with a readable parcel and one clean layer. -/
def envC9ok : VectorAnalyzer.VAEnv :=
  { referencia := "O", parcelaRead := .ok (),
    capas := [{ nombre := "urbanismo", body := .ok { afectado := true, area_m2 := 25 } }] }

/-- Coordinate environment whose JSON lookup answers HTTP 200 with valid
`geo.xcen` / `geo.ycen` fields and whose XML transport would raise. -/
def envC3 : CoordEnv :=
  { gmlCoords := none,
    jsonResp := .ok { status := 200,
                      body := .ok { geo := some { xcen := some (-3), ycen := some 40 } } },
    xmlResp := .error (.exc "net down") }

/-- An HTTP 200 response whose body is exactly the exception-report marker
(15 bytes, hence also below the 500-byte building threshold). -/
def respC4 : HttpResp := { status := 200, content := exceptionReportMarker }

open CatastroCompleteDownloader in
/-- Orchestrator environment in which the directory creations succeed but
every caught step body raises. -/
def orchEnvAllRaise : OrchEnv :=
  { geopandas := false,
    mkdirs := .ok (),
    consultaResult := .error (.exc "net"),
    parcelaResp := .error (.exc "net"),
    coordsEnv := { gmlCoords := none, jsonResp := .error (.exc "net"),
                   xmlResp := .error (.exc "net") },
    capasResult := .error (.exc "net"),
    edificioResp := .error (.exc "net"),
    fichaResult := .error (.exc "net"),
    afectEnv := { geopandasAvailable := false, referencia := "",
                  parcelaRead := .error (.exc "net"),
                  respuestas := fun _ => respMiss },
    sigpacResult := .error (.exc "net"),
    zipResult := .error (.exc "net") }

open CatastroCompleteDownloader in
/-- Orchestrator environment in which one of the uncaught directory-creation
calls fails (e.g. a full disk or an over-long reference name). -/
def orchEnvMkdirFail : OrchEnv :=
  { orchEnvAllRaise with mkdirs := .error (.exc "mkdir: no space left on device") }

open CatastroCompleteDownloader in
/-- The detection entry produced for `envC1`: the affected area equals the
exact parcel area (`0.014`, stored rounded to `0.01`), and the percentage —
divided by the rounded area `0.01` — is `140`. -/
def afC1cex : Afec :=
  { tipo := "espacios_naturales",
    descripcion := "Espacios Naturales Protegidos", detectado := true,
    area_afectada_m2 := 1/100, porcentaje_parcela := 140,
    numero_elementos := 1, nombres := none }

open CatastroCompleteDownloader in
/-- Conditions under which the per-service body of `analizar_afectaciones`
reaches the percentage computation (and hence the division by the rounded
parcel area). -/
def reachesDivisionBranch (resp : WfsResp) : Prop :=
  resp.falla = none ∧ resp.status = 200 ∧ 500 < resp.contentLen
  ∧ resp.hasExceptionReport = false ∧ resp.featuresEmpty = false
  ∧ resp.interEmpty = false ∧ 0 < resp.interAreaRaw

/-- Province mapping described by the spec: a reference belongs to the Canary
Islands when its first two characters are `"35"` or `"38"`.  This definition
follows the spec's words, for comparison with the source, which has no such
mapping. -/
def specCanaryProvince (ref : List ℕ) : Bool :=
  isPrefixB (strBytes "35") ref || isPrefixB (strBytes "38") ref

/-! Helper lemmas (shared across claims). -/

theorem mem_of_mem_dropWhile {α : Type} {p : α → Bool} {a : α} :
    ∀ {l : List α}, a ∈ l.dropWhile p → a ∈ l := by
  intro l
  induction l with
  | nil => intro h; simp at h
  | cons b bs ih =>
    intro h
    rw [List.dropWhile_cons] at h
    split at h
    · exact List.mem_cons_of_mem _ (ih h)
    · exact h

theorem mem_of_mem_pyStrip {a : ℕ} {l : List ℕ} (h : a ∈ pyStrip l) :
    a ∈ l := by
  unfold pyStrip at h
  rw [List.mem_reverse] at h
  have h1 := mem_of_mem_dropWhile h
  rw [List.mem_reverse] at h1
  exact mem_of_mem_dropWhile h1

theorem roundTo_mono (d : ℕ) {x y : ℚ} (h : x ≤ y) :
    roundTo d x ≤ roundTo d y := by
  unfold roundTo
  have h10 : (0 : ℚ) < 10 ^ d := by positivity
  have hr : round (x * 10 ^ d) ≤ round (y * 10 ^ d) := by
    rw [round_eq, round_eq]
    have := mul_le_mul_of_nonneg_right h h10.le
    exact Int.floor_mono (by linarith)
  exact (div_le_div_iff_of_pos_right h10).mpr (by exact_mod_cast hr)

theorem roundTo_zero (d : ℕ) : roundTo d 0 = 0 := by
  unfold roundTo
  rw [zero_mul, round_zero]
  simp

theorem roundTo_nonneg (d : ℕ) {x : ℚ} (h : 0 ≤ x) : 0 ≤ roundTo d x := by
  have h2 := roundTo_mono d h
  rwa [roundTo_zero] at h2

theorem roundTo_eq_of_round {d : ℕ} {x y : ℚ} {z : ℤ}
    (h1 : round (x * 10 ^ d) = z) (h2 : (z : ℚ) / 10 ^ d = y) :
    roundTo d x = y := by
  unfold roundTo
  rw [h1, h2]

theorem roundTo_hundred : roundTo 2 (100 : ℚ) = 100 :=
  roundTo_eq_of_round (z := 10000)
    (by rw [round_eq]; norm_num [Int.floor_eq_iff]) (by norm_num)

theorem roundTo_fifty : roundTo 2 (50 : ℚ) = 50 :=
  roundTo_eq_of_round (z := 5000)
    (by rw [round_eq]; norm_num [Int.floor_eq_iff]) (by norm_num)

theorem roundTo_onefortieth : roundTo 2 ((7 : ℚ)/500) = 1/100 :=
  roundTo_eq_of_round (z := 1)
    (by rw [round_eq]; norm_num [Int.floor_eq_iff]) (by norm_num)

theorem roundTo_tiny : roundTo 2 ((1 : ℚ)/250) = 0 :=
  roundTo_eq_of_round (z := 0)
    (by rw [round_eq]; norm_num [Int.floor_eq_iff]) (by norm_num)

theorem roundTo_onefortyC : roundTo 2 (140 : ℚ) = 140 :=
  roundTo_eq_of_round (z := 14000)
    (by rw [round_eq]; norm_num [Int.floor_eq_iff]) (by norm_num)

namespace CatastroCompleteDownloader

theorem procesar_servicio_ok_some {r : ℚ} {t d : String} {resp : WfsResp}
    {af : Afec} (h : procesar_servicio r t d resp = .ok (some af)) :
    af = { tipo := t, descripcion := d, detectado := true,
           area_afectada_m2 := roundTo 2 resp.interArea25830,
           porcentaje_parcela := roundTo 2 (resp.interArea25830 / r * 100),
           numero_elementos := resp.numElementos,
           nombres := resp.nombres } := by
  unfold procesar_servicio at h
  split at h
  · simp at h
  · split at h
    · split at h
      · split at h
        · simp only [Except.ok.injEq, Option.some.injEq] at h
          exact h.symm
        · simp at h
      · simp at h
    · simp at h

theorem capaStep_eq_some {r : ℚ} {t d : String} {resp : WfsResp} {af : Afec}
    (h : capaStep r t d resp = some af) :
    procesar_servicio r t d resp = .ok (some af) := by
  unfold capaStep at h
  split at h
  · rename_i o heq
    rw [heq, h]
  · simp at h

theorem analizar_afectaciones_eq (env : AfectEnv) (p : ParcelaData)
    (hg : env.geopandasAvailable = true) (hp : env.parcelaRead = .ok p)
    (he : p.isEmpty = false) :
    analizar_afectaciones env =
      some { referencia := env.referencia,
             area_parcela_m2 := roundTo 2 p.area_m2,
             latitud := roundTo 6 p.centroid_lat,
             longitud := roundTo 6 p.centroid_lon,
             utm_x := roundTo 2 p.centroid_utm_x,
             utm_y := roundTo 2 p.centroid_utm_y,
             huso_utm := 30,
             afectaciones_detectadas :=
               servicios_wfs.filterMap
                 (fun sd => capaStep (roundTo 2 p.area_m2) sd.1 sd.2
                   (env.respuestas sd.1)) } := by
  unfold analizar_afectaciones
  rw [hg, hp]
  simp [he]

theorem capaStep_respMiss (r : ℚ) (t d : String) :
    capaStep r t d respMiss = none := by
  unfold capaStep procesar_servicio respMiss
  simp

theorem capaStep_respFailC5 (r : ℚ) (t d : String) :
    capaStep r t d respFailC5 = none := by
  unfold capaStep procesar_servicio respFailC5
  simp

end CatastroCompleteDownloader

/-! Claim C7: reference normalization. -/

/-- C7 (counterexample): the claim states that `limpiar_referencia` uppercases
all letters, but `catastro_complete_downloader.limpiar_referencia` (and
`urban_analysis._limpiar_referencia`, identical) has no `.upper()`: on input
`"a"` it returns `"a"`, not `"A"`, while the `catastro_engine` version does
uppercase. -/
theorem limpiar_referencia_complete_keeps_lowercase :
    CatastroCompleteDownloader.limpiar_referencia (strBytes "a") = strBytes "a"
    ∧ strBytes "a" ≠ strBytes "A"
    ∧ CatastroEngine.limpiar_referencia (strBytes "a") = strBytes "A" := by
  refine ⟨by decide, by decide, by decide⟩

/-- C7 (amended): the engine's `limpiar_referencia` removes every space,
strips surrounding whitespace and uppercases (its output contains no space
and no lowercase ASCII letter); the complete downloader's version removes
spaces and strips but preserves case; both normalize
`"9872023 VH5797S 0001 WI"` to `"9872023VH5797S0001WI"`. -/
theorem limpiar_referencia_normalizes (s : List ℕ) :
    (32 ∉ CatastroEngine.limpiar_referencia s)
    ∧ (∀ n ∈ CatastroEngine.limpiar_referencia s, isLowerCode n = false)
    ∧ (32 ∉ CatastroCompleteDownloader.limpiar_referencia s)
    ∧ CatastroEngine.limpiar_referencia (strBytes "9872023 VH5797S 0001 WI")
        = strBytes "9872023VH5797S0001WI"
    ∧ CatastroCompleteDownloader.limpiar_referencia
        (strBytes "9872023 VH5797S 0001 WI")
        = strBytes "9872023VH5797S0001WI" := by
  refine ⟨?_, ?_, ?_, by decide, by decide⟩
  · intro h
    unfold CatastroEngine.limpiar_referencia at h
    rcases List.mem_map.mp h with ⟨m, hm, hup⟩
    have hm' := mem_of_mem_pyStrip hm
    have hne : (m != 32) = true := (List.mem_filter.mp hm').2
    unfold pyUpperCode at hup
    split at hup
    · rename_i hlow
      omega
    · simp at hne
      exact hne hup
  · intro n hn
    unfold CatastroEngine.limpiar_referencia at hn
    rcases List.mem_map.mp hn with ⟨m, _, rfl⟩
    unfold pyUpperCode isLowerCode
    split
    · rename_i hlow
      simp only [decide_eq_false_iff_not]
      omega
    · rename_i hlow
      simp only [decide_eq_false_iff_not]
      omega
  · intro h
    unfold CatastroCompleteDownloader.limpiar_referencia at h
    have hm' := mem_of_mem_pyStrip h
    have hne : ((32 : ℕ) != 32) = true := (List.mem_filter.mp hm').2
    simp at hne

/-- C7 (witness): the amended theorem applied at the concrete input `"ab c"`,
whose engine normalization is `"ABC"`; code point 66 (`'B'`) is a member of
the result and is not lowercase. -/
theorem limpiar_referencia_normalizes_witness :
    isLowerCode 66 = false
    ∧ (32 ∉ CatastroEngine.limpiar_referencia (strBytes "ab c")) :=
  ⟨(limpiar_referencia_normalizes (strBytes "ab c")).2.1 66 (by decide),
   (limpiar_referencia_normalizes (strBytes "ab c")).1⟩

/-! Claim C4: geometry-fetch responses with an exception-report body. -/

theorem isPrefixB_trans :
    ∀ {m1 m2 s : List ℕ}, isPrefixB m1 m2 = true → isPrefixB m2 s = true →
      isPrefixB m1 s = true := by
  intro m1
  induction m1 with
  | nil => intro m2 s _ _; rfl
  | cons a as ih =>
    intro m2 s h12 h2s
    cases m2 with
    | nil => simp [isPrefixB] at h12
    | cons b bs =>
      cases s with
      | nil => simp [isPrefixB] at h2s
      | cons c cs =>
        simp only [isPrefixB, Bool.and_eq_true, beq_iff_eq] at h12 h2s ⊢
        exact ⟨h12.1.trans h2s.1, ih h12.2 h2s.2⟩

theorem containsSub_mono {m1 m2 : List ℕ} (h : isPrefixB m1 m2 = true) :
    ∀ {l : List ℕ}, containsSub m2 l = true → containsSub m1 l = true := by
  intro l
  induction l with
  | nil =>
    intro hc
    unfold containsSub at hc ⊢
    cases m2 with
    | nil =>
      cases m1 with
      | nil => rfl
      | cons a as => simp [isPrefixB] at h
    | cons b bs => simp [isPrefixB] at hc
  | cons c cs ih =>
    intro hc
    unfold containsSub at hc ⊢
    rcases Bool.or_eq_true_iff.mp hc with h1 | h2
    · exact Bool.or_eq_true_iff.mpr (.inl (isPrefixB_trans h h1))
    · exact Bool.or_eq_true_iff.mpr (.inr (ih h2))

/-- C4: for every HTTP response whose body contains `b'ExceptionReport'`,
the parcel fetches (`descargar_parcela_gml` of the complete downloader and
of `urban_analysis`, and `catastro_engine.descargar_geometrias`, which
checks the shorter marker `b'Exception'`) and the building fetch all return
`None`, even when the status is 200; a building response of at most 500
bytes is likewise rejected. -/
theorem geometry_fetch_rejects_exception_report (r : HttpResp) :
    (containsSub exceptionReportMarker r.content = true →
      CatastroCompleteDownloader.descargar_parcela_gml r = none
      ∧ CatastroCompleteDownloader.descargar_edificio_gml r = none
      ∧ AnalizadorUrbanistico.descargar_parcela_gml r = none
      ∧ CatastroEngine.descargar_geometrias r = none)
    ∧ (r.content.length ≤ 500 →
      CatastroCompleteDownloader.descargar_edificio_gml r = none) := by
  constructor
  · intro hmark
    have hmark' : containsSub exceptionMarker r.content = true :=
      containsSub_mono (by decide) hmark
    refine ⟨?_, ?_, ?_, ?_⟩
    · unfold CatastroCompleteDownloader.descargar_parcela_gml
      rw [if_neg]
      intro hcond
      rw [hmark] at hcond
      exact absurd hcond.2 (by simp)
    · unfold CatastroCompleteDownloader.descargar_edificio_gml
      rw [if_neg]
      intro hcond
      rw [hmark] at hcond
      exact absurd hcond.2.1 (by simp)
    · unfold AnalizadorUrbanistico.descargar_parcela_gml
      rw [hmark]
      split <;> rfl
    · unfold CatastroEngine.descargar_geometrias
      rw [if_neg]
      intro hcond
      rw [hmark'] at hcond
      exact absurd hcond.2 (by simp)
  · intro hlen
    unfold CatastroCompleteDownloader.descargar_edificio_gml
    rw [if_neg]
    intro hcond
    omega

/-- C4 (witness): the theorem applied to a status-200 response whose body is
exactly the 15-byte exception-report marker, discharging both the
marker-containment and the length hypotheses. -/
theorem geometry_fetch_rejects_exception_report_witness :
    (CatastroCompleteDownloader.descargar_parcela_gml respC4 = none
      ∧ CatastroCompleteDownloader.descargar_edificio_gml respC4 = none
      ∧ AnalizadorUrbanistico.descargar_parcela_gml respC4 = none
      ∧ CatastroEngine.descargar_geometrias respC4 = none)
    ∧ CatastroCompleteDownloader.descargar_edificio_gml respC4 = none :=
  ⟨(geometry_fetch_rejects_exception_report respC4).1 (by decide),
   (geometry_fetch_rejects_exception_report respC4).2 (by decide)⟩

/-! Claim C2: projected CRS requested by the geometry fetch. -/

/-- C2 (counterexample): a reference with Canary prefix `"35"` and a mainland
reference (`"28"` prefix) produce bitwise-identical `srsname` parameters —
`EPSG:25830` in every case — so the fetch does not select a different
projected CRS for the Canary Islands as the claim requires; the engine even
requests the geodetic `EPSG:4326` for both. -/
theorem geometry_fetch_srsname_ignores_canary :
    specCanaryProvince (strBytes "3500000XX0000X0001XX") = true
    ∧ specCanaryProvince (strBytes "2800000XX0000X0001XX") = false
    ∧ (CatastroCompleteDownloader.parcelaGmlParams "3500000XX0000X0001XX").lookup "srsname"
        = (CatastroCompleteDownloader.parcelaGmlParams "2800000XX0000X0001XX").lookup "srsname"
    ∧ (CatastroCompleteDownloader.parcelaGmlParams "3500000XX0000X0001XX").lookup "srsname"
        = some "EPSG:25830"
    ∧ (CatastroEngine.descargarGeometriasParams "3500000XX0000X0001XX").lookup "srsname"
        = (CatastroEngine.descargarGeometriasParams "2800000XX0000X0001XX").lookup "srsname"
    ∧ (CatastroEngine.descargarGeometriasParams "3500000XX0000X0001XX").lookup "srsname"
        = some "EPSG:4326" := by
  refine ⟨by decide, by decide, rfl, rfl, rfl, rfl⟩

/-- C2 (amended): the requested CRS is a fixed constant, independent of the
reference's first two characters: `EPSG:25830` for parcel and building
fetches of the complete downloader and the urban analyzer, and `EPSG:4326`
for `catastro_engine.descargar_geometrias`. -/
theorem geometry_fetch_srsname_fixed (ref : String) :
    (CatastroCompleteDownloader.parcelaGmlParams ref).lookup "srsname"
        = some "EPSG:25830"
    ∧ (CatastroCompleteDownloader.edificioGmlParams ref).lookup "srsname"
        = some "EPSG:25830"
    ∧ (AnalizadorUrbanistico.parcelaGmlParams ref).lookup "srsname"
        = some "EPSG:25830"
    ∧ (CatastroEngine.descargarGeometriasParams ref).lookup "srsname"
        = some "EPSG:4326" :=
  ⟨rfl, rfl, rfl, rfl⟩

/-! Claim C6: all raster layer requests share one bounding box. -/

/-- C6: for a fixed coordinate point, any two WMS requests issued by
`descargar_capas_multiples` (orthophoto, cadastral, street map, hydrography)
carry the same bounding box and the same pixel dimensions (1600 × 1600). -/
theorem capas_multiples_share_bbox (lon lat : ℚ)
    (r1 r2 : CatastroCompleteDownloader.WmsRequest)
    (h1 : r1 ∈ CatastroCompleteDownloader.descargar_capas_multiples_requests lon lat)
    (h2 : r2 ∈ CatastroCompleteDownloader.descargar_capas_multiples_requests lon lat) :
    r1.bbox = r2.bbox ∧ r1.width = r2.width ∧ r1.height = r2.height := by
  unfold CatastroCompleteDownloader.descargar_capas_multiples_requests at h1 h2
  rcases List.mem_map.mp h1 with ⟨nl1, _, hr1⟩
  rcases List.mem_map.mp h2 with ⟨nl2, _, hr2⟩
  subst hr1
  subst hr2
  exact ⟨rfl, rfl, rfl⟩

/-- C6 (witness): the theorem applied at the origin to the cadastral and
street-map requests, whose membership hypotheses are discharged by
computation. -/
theorem capas_multiples_share_bbox_witness :
    (CatastroCompleteDownloader.descargar_capa_wms_request 0 0 "Catastro" 200).bbox
      = (CatastroCompleteDownloader.descargar_capa_wms_request 0 0 "Callejero" 200).bbox
    ∧ (CatastroCompleteDownloader.descargar_capa_wms_request 0 0 "Catastro" 200).width
      = (CatastroCompleteDownloader.descargar_capa_wms_request 0 0 "Callejero" 200).width
    ∧ (CatastroCompleteDownloader.descargar_capa_wms_request 0 0 "Catastro" 200).height
      = (CatastroCompleteDownloader.descargar_capa_wms_request 0 0 "Callejero" 200).height :=
  capas_multiples_share_bbox 0 0 _ _
    (by unfold CatastroCompleteDownloader.descargar_capas_multiples_requests
          CatastroCompleteDownloader.capas_wms
        simp)
    (by unfold CatastroCompleteDownloader.descargar_capas_multiples_requests
          CatastroCompleteDownloader.capas_wms
        simp)

/-! Claim C3: the coordinate cascade short-circuits on JSON success. -/

/-- C3: whenever the fast JSON lookup answers HTTP 200 with a parseable body
carrying `geo.xcen` and `geo.ycen`, `catastro_engine.obtener_coordenadas`
returns exactly those coordinates (provenance `"JSON"`) without querying the
XML endpoint; the complete downloader's `obtener_coordenadas` likewise never
queries the XML endpoint, and returns those coordinates whenever its GML
step did not already succeed. -/
theorem obtener_coordenadas_json_short_circuit
    (env : CoordEnv) (r : JsonResp) (d : JsonData) (g : GeoFields) (x y : ℚ)
    (hr : env.jsonResp = Except.ok r) (hs : r.status = 200)
    (hd : r.body = Except.ok d) (hg : d.geo = some g)
    (hx : g.xcen = some x) (hy : g.ycen = some y) :
    CatastroEngine.obtener_coordenadas env = (some ⟨x, y, "JSON"⟩, false)
    ∧ (CatastroCompleteDownloader.obtener_coordenadas env).2 = false
    ∧ (env.gmlCoords = none →
        CatastroCompleteDownloader.obtener_coordenadas env
          = (some ⟨x, y, "EPSG:4326"⟩, false)) := by
  have hje : CatastroEngine.jsonAttempt env.jsonResp = some ⟨x, y, "JSON"⟩ := by
    rw [CatastroEngine.jsonAttempt.eq_def, hr]
    simp [hs, hd, hg, hx, hy]
  have hjc : CatastroCompleteDownloader.jsonAttempt env.jsonResp
      = some ⟨x, y, "EPSG:4326"⟩ := by
    rw [CatastroCompleteDownloader.jsonAttempt.eq_def, hr]
    simp [hs, hd, hg, hx, hy]
  refine ⟨?_, ?_, ?_⟩
  · rw [CatastroEngine.obtener_coordenadas.eq_def, hje]
  · rw [CatastroCompleteDownloader.obtener_coordenadas.eq_def]
    cases hgml : env.gmlCoords with
    | some c => rfl
    | none => rw [hjc]
  · intro hgml
    rw [CatastroCompleteDownloader.obtener_coordenadas.eq_def, hgml, hjc]

/-- C3 (witness): the theorem applied to a concrete environment whose JSON
response is valid and whose XML transport would raise. -/
theorem obtener_coordenadas_json_short_circuit_witness :
    CatastroEngine.obtener_coordenadas envC3 = (some ⟨-3, 40, "JSON"⟩, false)
    ∧ (CatastroCompleteDownloader.obtener_coordenadas envC3).2 = false
    ∧ (envC3.gmlCoords = none →
        CatastroCompleteDownloader.obtener_coordenadas envC3
          = (some ⟨-3, 40, "EPSG:4326"⟩, false)) :=
  obtener_coordenadas_json_short_circuit envC3
    { status := 200, body := .ok { geo := some { xcen := some (-3), ycen := some 40 } } }
    { geo := some { xcen := some (-3), ycen := some 40 } }
    { xcen := some (-3), ycen := some 40 }
    (-3) 40 rfl rfl rfl rfl rfl rfl

/-! Claim C9: the two return shapes of `ejecutar_analisis_completo`. -/

theorem runCapas_isOk_of_all_ok (referencia : String) :
    ∀ (cs : List VectorAnalyzer.CapaEnv),
      (∀ c ∈ cs, exceptIsOk c.body = true) →
      exceptIsOk (VectorAnalyzer.runCapas referencia cs) = true := by
  intro cs
  induction cs with
  | nil => intro _; rfl
  | cons c rest ih =>
    intro hall
    have hc := hall c (List.mem_cons_self c rest)
    unfold VectorAnalyzer.runCapas
    cases hb : c.body with
    | error e => rw [hb] at hc; simp [exceptIsOk] at hc
    | ok out =>
      have hrest := ih (fun c' hc' => hall c' (List.mem_cons_of_mem _ hc'))
      cases hr : VectorAnalyzer.runCapas referencia rest with
      | error e => rw [hr] at hrest; simp [exceptIsOk] at hrest
      | ok rs => rfl

/-- C9: `ejecutar_analisis_completo` has no uniform return shape: when the
parcel file cannot be read it returns the error-dictionary shape (with the
`"error"` message), while a successful run over raising-free layers returns
the list-of-results shape, and the two shapes are distinct — callers must
inspect the result's type. -/
theorem ejecutar_analisis_two_return_shapes (env : VectorAnalyzer.VAEnv) :
    (∀ e, env.parcelaRead = .error e →
      VectorAnalyzer.ejecutar_analisis_completo env
        = .ok (.errorDict ("Error leyendo archivo de parcela: " ++ pyErrMsg e)))
    ∧ ((∀ c ∈ env.capas, exceptIsOk c.body = true) →
        ∀ u : Unit, env.parcelaRead = .ok u →
        VectorAnalyzer.isResultsRet
          (VectorAnalyzer.ejecutar_analisis_completo env) = true)
    ∧ (∀ o, VectorAnalyzer.isErrorDictRet o = true →
        VectorAnalyzer.isResultsRet o = false) := by
  refine ⟨?_, ?_, ?_⟩
  · intro e he
    unfold VectorAnalyzer.ejecutar_analisis_completo
    rw [he]
  · intro hall u hu
    unfold VectorAnalyzer.ejecutar_analisis_completo
    rw [hu]
    have hok := runCapas_isOk_of_all_ok env.referencia env.capas hall
    cases hr : VectorAnalyzer.runCapas env.referencia env.capas with
    | error e => rw [hr] at hok; simp [exceptIsOk] at hok
    | ok rs => rfl
  · intro o ho
    cases o with
    | error e => rfl
    | ok ret =>
      cases ret with
      | errorDict m => rfl
      | results rs => simp [VectorAnalyzer.isErrorDictRet] at ho

/-- C9 (witness): the theorem applied to one environment whose parcel read
raises (error-dictionary shape) and one whose read succeeds with a clean
layer (results shape). -/
theorem ejecutar_analisis_two_return_shapes_witness :
    VectorAnalyzer.ejecutar_analisis_completo envC9err
      = .ok (.errorDict "Error leyendo archivo de parcela: boom")
    ∧ VectorAnalyzer.isResultsRet
        (VectorAnalyzer.ejecutar_analisis_completo envC9ok) = true
    ∧ VectorAnalyzer.isResultsRet (.ok (.errorDict "x")) = false :=
  ⟨(ejecutar_analisis_two_return_shapes envC9err).1 (.exc "boom") rfl,
   (ejecutar_analisis_two_return_shapes envC9ok).2.1
     (by intro c hc; simp [envC9ok] at hc; rw [hc]; rfl) () rfl,
   (ejecutar_analisis_two_return_shapes envC9ok).2.2 _ rfl⟩

/-! Claim C5: isolation of per-layer failures. -/

/-- C5 (counterexample): in `VectorAnalyzer.ejecutar_analisis_completo` a
failure while analyzing one layer aborts the analysis of the remaining
layers: with a first layer whose analysis raises and a second, perfectly
analyzable layer, the call propagates the exception and yields no per-layer
results at all. -/
theorem ejecutar_analisis_layer_failure_aborts :
    VectorAnalyzer.ejecutar_analisis_completo envC5cex
      = .error (.exc "overlay failed")
    ∧ VectorAnalyzer.isResultsRet
        (VectorAnalyzer.ejecutar_analisis_completo envC5cex) = false :=
  ⟨rfl, rfl⟩

/-- C5 (amended theorem): in `analizar_afectaciones` (the remote WFS layer
catalog) a failure in one layer is contained by the per-layer handler: the
analysis still returns a result, and every layer whose own step succeeds
with a detection contributes its entry to the output, no matter what the
other layers' responses (including raised exceptions) are. -/
theorem analizar_afectaciones_layer_failure_isolated
    (env : CatastroCompleteDownloader.AfectEnv)
    (p : CatastroCompleteDownloader.ParcelaData)
    (hg : env.geopandasAvailable = true)
    (hp : env.parcelaRead = .ok p) (he : p.isEmpty = false)
    (sd : String × String)
    (hsd : sd ∈ CatastroCompleteDownloader.servicios_wfs)
    (af : CatastroCompleteDownloader.Afec)
    (hstep : CatastroCompleteDownloader.capaStep (roundTo 2 p.area_m2)
      sd.1 sd.2 (env.respuestas sd.1) = some af) :
    (CatastroCompleteDownloader.analizar_afectaciones env).isSome = true
    ∧ af ∈ CatastroCompleteDownloader.afectacionesOf
        (CatastroCompleteDownloader.analizar_afectaciones env) := by
  rw [CatastroCompleteDownloader.analizar_afectaciones_eq env p hg hp he]
  refine ⟨rfl, ?_⟩
  simp only [CatastroCompleteDownloader.afectacionesOf]
  exact List.mem_filterMap.mpr ⟨sd, hsd, hstep⟩

namespace CatastroCompleteDownloader

theorem capaStep_respHalf_100 :
    capaStep 100 "espacios_naturales" "Espacios Naturales Protegidos" respHalf
      = some afC1w := by
  have e1 : (50 : ℚ) / 100 * 100 = 50 := by norm_num
  unfold capaStep procesar_servicio respHalf afC1w
  norm_num [e1, roundTo_fifty]

end CatastroCompleteDownloader

/-- C5 (witness): the amended theorem applied to an environment in which the
`carreteras` layer raises while `espacios_naturales` detects a 50 %
affectation: the analysis still returns a result containing that entry. -/
theorem analizar_afectaciones_layer_failure_isolated_witness :
    (CatastroCompleteDownloader.analizar_afectaciones envC5).isSome = true
    ∧ afC1w ∈ CatastroCompleteDownloader.afectacionesOf
        (CatastroCompleteDownloader.analizar_afectaciones envC5) :=
  analizar_afectaciones_layer_failure_isolated envC5 pC1w rfl rfl rfl
    ("espacios_naturales", "Espacios Naturales Protegidos")
    (by simp [CatastroCompleteDownloader.servicios_wfs]) afC1w
    (by
      show CatastroCompleteDownloader.capaStep (roundTo 2 pC1w.area_m2)
        "espacios_naturales" "Espacios Naturales Protegidos" respHalf
          = some afC1w
      have h2 : roundTo 2 pC1w.area_m2 = 100 := roundTo_hundred
      rw [h2]
      exact CatastroCompleteDownloader.capaStep_respHalf_100)

/-! Claim C1: the affectation percentage and its bounds. -/

namespace CatastroCompleteDownloader

theorem capaStep_respFullC1_eval :
    capaStep (1/100) "espacios_naturales" "Espacios Naturales Protegidos"
      respFullC1 = some afC1cex := by
  have e1 : (7 : ℚ)/500 / (1/100) * 100 = 140 := by norm_num
  unfold capaStep procesar_servicio respFullC1 afC1cex
  norm_num [e1, roundTo_onefortyC, roundTo_onefortieth]

end CatastroCompleteDownloader

/-- C1 (counterexample): the percentage is computed with the parcel area
rounded to two decimals as the divisor, so it is not bounded by 100: for the
parcel `pC1` of exact area `0.014 m²` (rounded to `0.01`) and a layer
covering the whole parcel, `analizar_afectaciones` reports a single entry
whose `porcentaje_parcela` is `140`. -/
theorem afectaciones_porcentaje_exceeds_100 :
    (CatastroCompleteDownloader.afectacionesOf
        (CatastroCompleteDownloader.analizar_afectaciones envC1)).map
      (fun af => af.porcentaje_parcela) = [140]
    ∧ ¬ ((140 : ℚ) ≤ 100) := by
  constructor
  · rw [CatastroCompleteDownloader.analizar_afectaciones_eq envC1 pC1 rfl rfl rfl]
    simp only [CatastroCompleteDownloader.afectacionesOf]
    have harea : roundTo 2 pC1.area_m2 = 1/100 := roundTo_onefortieth
    rw [harea]
    have h1 : envC1.respuestas "espacios_naturales" = respFullC1 := rfl
    have h2 : envC1.respuestas "zonas_inundables" = respMiss := rfl
    have h3 : envC1.respuestas "dph" = respMiss := rfl
    have h4 : envC1.respuestas "carreteras" = respMiss := rfl
    simp only [CatastroCompleteDownloader.servicios_wfs, List.filterMap_cons,
      List.filterMap_nil, h1, h2, h3, h4,
      CatastroCompleteDownloader.capaStep_respFullC1_eval,
      CatastroCompleteDownloader.capaStep_respMiss]
    simp only [List.map_cons, List.map_nil, afC1cex]
  · norm_num

/-- C1 (amended theorem): every reported percentage equals the affected area
divided by the parcel area rounded to two decimals, times 100; it is always
nonnegative, and is at most 100 provided each affected area does not exceed
that rounded parcel area (which the rounding can push below the exact
area, as the counterexample shows). -/
theorem afectaciones_porcentaje_bounded
    (env : CatastroCompleteDownloader.AfectEnv)
    (p : CatastroCompleteDownloader.ParcelaData)
    (hg : env.geopandasAvailable = true)
    (hp : env.parcelaRead = .ok p) (he : p.isEmpty = false)
    (ha : 0 ≤ p.area_m2)
    (hb : ∀ sd ∈ CatastroCompleteDownloader.servicios_wfs,
      0 ≤ (env.respuestas sd.1).interArea25830
      ∧ (env.respuestas sd.1).interArea25830 ≤ roundTo 2 p.area_m2) :
    ∀ af ∈ CatastroCompleteDownloader.afectacionesOf
        (CatastroCompleteDownloader.analizar_afectaciones env),
      0 ≤ af.porcentaje_parcela ∧ af.porcentaje_parcela ≤ 100 := by
  intro af haf
  rw [CatastroCompleteDownloader.analizar_afectaciones_eq env p hg hp he] at haf
  simp only [CatastroCompleteDownloader.afectacionesOf] at haf
  rcases List.mem_filterMap.mp haf with ⟨sd, hsd, hstep⟩
  have haf_eq := CatastroCompleteDownloader.procesar_servicio_ok_some
    (CatastroCompleteDownloader.capaStep_eq_some hstep)
  rcases hb sd hsd with ⟨h0, h1⟩
  subst haf_eq
  dsimp only
  have hr0 : 0 ≤ roundTo 2 p.area_m2 := roundTo_nonneg 2 ha
  rcases eq_or_lt_of_le hr0 with hrz | hrpos
  · have ha0 : (env.respuestas sd.1).interArea25830 = 0 := by
      rw [← hrz] at h1
      exact le_antisymm h1 h0
    rw [ha0, zero_div, zero_mul, roundTo_zero]
    norm_num
  · have hx0 : 0 ≤ (env.respuestas sd.1).interArea25830 / roundTo 2 p.area_m2 * 100 :=
      mul_nonneg (div_nonneg h0 hr0) (by norm_num)
    have hx1 : (env.respuestas sd.1).interArea25830 / roundTo 2 p.area_m2 * 100 ≤ 100 := by
      have hd : (env.respuestas sd.1).interArea25830 / roundTo 2 p.area_m2 ≤ 1 :=
        (div_le_one hrpos).mpr h1
      nlinarith
    constructor
    · exact roundTo_nonneg 2 hx0
    · have hm := roundTo_mono 2 hx1
      rwa [roundTo_hundred] at hm

theorem analizar_envC1w_eval :
    CatastroCompleteDownloader.afectacionesOf
      (CatastroCompleteDownloader.analizar_afectaciones envC1w) = [afC1w] := by
  rw [CatastroCompleteDownloader.analizar_afectaciones_eq envC1w pC1w rfl rfl rfl]
  simp only [CatastroCompleteDownloader.afectacionesOf]
  have harea : roundTo 2 pC1w.area_m2 = 100 := roundTo_hundred
  rw [harea]
  have h1 : envC1w.respuestas "espacios_naturales" = respHalf := rfl
  have h2 : envC1w.respuestas "zonas_inundables" = respMiss := rfl
  have h3 : envC1w.respuestas "dph" = respMiss := rfl
  have h4 : envC1w.respuestas "carreteras" = respMiss := rfl
  simp [CatastroCompleteDownloader.servicios_wfs, h1, h2, h3, h4,
    CatastroCompleteDownloader.capaStep_respHalf_100,
    CatastroCompleteDownloader.capaStep_respMiss]

/-- C1 (witness): the amended theorem applied to a `100 m²` parcel half
covered by the first layer: the reported percentage (50) lies in `[0, 100]`. -/
theorem afectaciones_porcentaje_bounded_witness :
    0 ≤ afC1w.porcentaje_parcela ∧ afC1w.porcentaje_parcela ≤ 100 :=
  afectaciones_porcentaje_bounded envC1w pC1w rfl rfl rfl
    (by norm_num [pC1w])
    (by
      intro sd hsd
      fin_cases hsd
      · show 0 ≤ respHalf.interArea25830
          ∧ respHalf.interArea25830 ≤ roundTo 2 pC1w.area_m2
        norm_num [respHalf, pC1w, roundTo_hundred]
      · show 0 ≤ respMiss.interArea25830
          ∧ respMiss.interArea25830 ≤ roundTo 2 pC1w.area_m2
        norm_num [respMiss, pC1w, roundTo_hundred]
      · show 0 ≤ respMiss.interArea25830
          ∧ respMiss.interArea25830 ≤ roundTo 2 pC1w.area_m2
        norm_num [respMiss, pC1w, roundTo_hundred]
      · show 0 ≤ respMiss.interArea25830
          ∧ respMiss.interArea25830 ≤ roundTo 2 pC1w.area_m2
        norm_num [respMiss, pC1w, roundTo_hundred])
    afC1w (by rw [analizar_envC1w_eval]; simp)

/-! Claim C10: division by the rounded parcel area. -/

/-- C10 (counterexample): for the degenerate parcel `pC10` (exact area
`0.004 m²`, rounded divisor `0.0`) with a positively intersecting layer, the
percentage computation does not raise a division-by-zero at all — the
numerator is a numpy `float64`, so the quotient is an IEEE infinity — hence
nothing reaches the outer handler: the per-layer body completes without an
exception, the layer's entry is still appended, and `analizar_afectaciones`
returns the result dictionary rather than `None`. -/
theorem degenerate_parcel_does_not_abort_analysis :
    exceptIsOk (CatastroCompleteDownloader.procesar_servicio
        (roundTo 2 pC10.area_m2) "espacios_naturales"
        "Espacios Naturales Protegidos" respC10) = true
    ∧ (CatastroCompleteDownloader.capaStep (roundTo 2 pC10.area_m2)
        "espacios_naturales" "Espacios Naturales Protegidos" respC10).isSome
      = true
    ∧ CatastroCompleteDownloader.analizar_afectaciones envC10 ≠ none := by
  have hps : CatastroCompleteDownloader.procesar_servicio
      (roundTo 2 pC10.area_m2) "espacios_naturales"
      "Espacios Naturales Protegidos" respC10
        = .ok (some { tipo := "espacios_naturales",
                      descripcion := "Espacios Naturales Protegidos",
                      detectado := true,
                      area_afectada_m2 := roundTo 2 respC10.interArea25830,
                      porcentaje_parcela := roundTo 2 (respC10.interArea25830
                        / roundTo 2 pC10.area_m2 * 100),
                      numero_elementos := respC10.numElementos,
                      nombres := respC10.nombres }) := by
    unfold CatastroCompleteDownloader.procesar_servicio
    rw [show respC10.falla = none from rfl]
    rw [if_pos (⟨rfl, by norm_num [respC10], rfl⟩ :
          respC10.status = 200 ∧ 500 < respC10.contentLen
          ∧ respC10.hasExceptionReport = false),
      if_pos (show respC10.featuresEmpty = false from rfl),
      if_pos (⟨rfl, by norm_num [respC10]⟩ :
          respC10.interEmpty = false ∧ 0 < respC10.interAreaRaw)]
  refine ⟨by rw [hps]; rfl, ?_, ?_⟩
  · unfold CatastroCompleteDownloader.capaStep
    rw [hps]
    rfl
  · rw [CatastroCompleteDownloader.analizar_afectaciones_eq envC10 pC10 rfl rfl rfl]
    simp

/-- C10 (amended theorem): the percentage divides by the parcel area rounded
to two decimals; when that rounded area is `0.0` and a layer's response
reaches the percentage computation, no exception is raised (the numpy
`float64` numerator divided by `0.0` yields an IEEE infinity with a
`RuntimeWarning`, not a `ZeroDivisionError`): the per-layer body completes,
the layer's entry is still appended to the detections, and the analysis
returns the result dictionary rather than `None`. -/
theorem zero_divisor_no_exception_entry_appended
    (env : CatastroCompleteDownloader.AfectEnv)
    (p : CatastroCompleteDownloader.ParcelaData)
    (hg : env.geopandasAvailable = true)
    (hp : env.parcelaRead = .ok p) (he : p.isEmpty = false)
    (_h0 : roundTo 2 p.area_m2 = 0) (tipo descripcion : String)
    (hresp : reachesDivisionBranch (env.respuestas tipo)) :
    exceptIsOk (CatastroCompleteDownloader.procesar_servicio
        (roundTo 2 p.area_m2) tipo descripcion (env.respuestas tipo)) = true
    ∧ (CatastroCompleteDownloader.capaStep (roundTo 2 p.area_m2)
        tipo descripcion (env.respuestas tipo)).isSome = true
    ∧ (CatastroCompleteDownloader.analizar_afectaciones env).isSome = true := by
  obtain ⟨hf, hs, hc, hm, hfe, hie, hir⟩ := hresp
  have hps : CatastroCompleteDownloader.procesar_servicio (roundTo 2 p.area_m2)
      tipo descripcion (env.respuestas tipo)
        = .ok (some { tipo := tipo, descripcion := descripcion,
                      detectado := true,
                      area_afectada_m2 :=
                        roundTo 2 (env.respuestas tipo).interArea25830,
                      porcentaje_parcela :=
                        roundTo 2 ((env.respuestas tipo).interArea25830
                          / roundTo 2 p.area_m2 * 100),
                      numero_elementos := (env.respuestas tipo).numElementos,
                      nombres := (env.respuestas tipo).nombres }) := by
    unfold CatastroCompleteDownloader.procesar_servicio
    simp only [hf]
    rw [if_pos ⟨hs, hc, hm⟩, if_pos hfe, if_pos ⟨hie, hir⟩]
  refine ⟨by rw [hps]; rfl, ?_, ?_⟩
  · unfold CatastroCompleteDownloader.capaStep
    rw [hps]
    rfl
  · rw [CatastroCompleteDownloader.analizar_afectaciones_eq env p hg hp he]
    rfl

/-- C10 (witness): the amended theorem applied to the concrete degenerate
environment `envC10`, discharging the rounded-area-is-zero and
reaches-the-division hypotheses. -/
theorem zero_divisor_no_exception_entry_appended_witness :
    exceptIsOk (CatastroCompleteDownloader.procesar_servicio
        (roundTo 2 pC10.area_m2) "espacios_naturales"
        "Espacios Naturales Protegidos"
        (envC10.respuestas "espacios_naturales")) = true
    ∧ (CatastroCompleteDownloader.capaStep (roundTo 2 pC10.area_m2)
        "espacios_naturales" "Espacios Naturales Protegidos"
        (envC10.respuestas "espacios_naturales")).isSome = true
    ∧ (CatastroCompleteDownloader.analizar_afectaciones envC10).isSome = true :=
  zero_divisor_no_exception_entry_appended envC10 pC10 rfl rfl rfl roundTo_tiny
    "espacios_naturales" "Espacios Naturales Protegidos"
    (by
      show reachesDivisionBranch respC10
      exact ⟨rfl, rfl, by norm_num [respC10], rfl, rfl, rfl,
        by norm_num [respC10]⟩)

/-! Claim C8: batch processing. -/

theorem pyDictInsert_of_not_mem {β : Type} {d : List (String × β)} {k : String}
    {v : β} (h : k ∉ d.map Prod.fst) :
    CatastroCompleteDownloader.pyDictInsert d k v = d ++ [(k, v)] := by
  unfold CatastroCompleteDownloader.pyDictInsert
  rw [if_neg h]

theorem procesar_lote_loop_eq (envOf : String → CatastroCompleteDownloader.OrchEnv) :
    ∀ (refs : List String) (d : List (String × (Bool × Option String))),
      refs.Nodup → (∀ r ∈ refs, r ∉ d.map Prod.fst) →
      (∀ r ∈ refs, (envOf r).mkdirs = Except.ok ()) →
      CatastroCompleteDownloader.procesar_lote_loop envOf d refs
        = .ok (d ++ refs.map (fun r =>
            (r, CatastroCompleteDownloader.descargar_todo_completo_steps (envOf r)))) := by
  intro refs
  induction refs with
  | nil =>
    intro d _ _ _
    simp [CatastroCompleteDownloader.procesar_lote_loop]
  | cons r rs ih =>
    intro d hnd hd hmk
    have hcall : CatastroCompleteDownloader.descargar_todo_completo (envOf r)
        = .ok (CatastroCompleteDownloader.descargar_todo_completo_steps (envOf r)) := by
      unfold CatastroCompleteDownloader.descargar_todo_completo
      rw [hmk r (List.mem_cons_self r rs)]
    simp only [CatastroCompleteDownloader.procesar_lote_loop, hcall]
    rw [pyDictInsert_of_not_mem (hd r (List.mem_cons_self r rs))]
    have hnotin : ∀ r' ∈ rs,
        r' ∉ (d ++ [(r, CatastroCompleteDownloader.descargar_todo_completo_steps (envOf r))]).map
          Prod.fst := by
      intro r' hr'
      rw [List.map_append, List.mem_append]
      rintro (hin | hin)
      · exact hd r' (List.mem_cons_of_mem _ hr') hin
      · simp at hin
        exact (List.nodup_cons.mp hnd).1 (hin ▸ hr')
    have hmk' : ∀ r' ∈ rs, (envOf r').mkdirs = Except.ok () :=
      fun r' hr' => hmk r' (List.mem_cons_of_mem _ hr')
    rw [ih _ (List.nodup_cons.mp hnd).2 hnotin hmk', List.append_assoc]
    rfl

/-- C8 (counterexample): an exception can escape the batch call: the
directory-creation calls of `descargar_todo_completo` (its own
`ref_dir.mkdir`/per-type folder `mkdir`s and each helper's pre-`try`
`mkdir`) sit outside every `try/except`, so a filesystem fault among them
raises straight out of `descargar_todo_completo` and out of `procesar_lote`,
which then yields no result map at all. -/
theorem procesar_lote_mkdir_failure_escapes :
    CatastroCompleteDownloader.descargar_todo_completo orchEnvMkdirFail
      = .error (.exc "mkdir: no space left on device")
    ∧ CatastroCompleteDownloader.procesar_lote (fun _ => orchEnvMkdirFail) ["REFC"]
      = .error (.exc "mkdir: no space left on device") :=
  ⟨rfl, rfl⟩

/-- C8 (amended theorem): provided each reference's uncaught
directory-creation calls succeed, batch processing raises nothing — every
other step body may raise and is caught at step level, as in the
environment where all of them do — and returns a result dict with exactly
one entry per distinct reference, keyed by that reference and holding the
per-reference `(success, zip)` outcome. -/
theorem procesar_lote_one_entry_per_reference
    (envOf : String → CatastroCompleteDownloader.OrchEnv)
    (refs : List String) (h : refs.Nodup)
    (hmk : ∀ r ∈ refs, (envOf r).mkdirs = Except.ok ()) :
    CatastroCompleteDownloader.procesar_lote envOf refs
      = .ok (refs.map (fun r =>
          (r, CatastroCompleteDownloader.descargar_todo_completo_steps (envOf r))))
    ∧ (refs.map (fun r =>
        (r, CatastroCompleteDownloader.descargar_todo_completo_steps (envOf r)))).map
          Prod.fst = refs := by
  have he := procesar_lote_loop_eq envOf refs [] h (by simp) hmk
  refine ⟨by unfold CatastroCompleteDownloader.procesar_lote; simpa using he, ?_⟩
  rw [List.map_map]
  have hid : (Prod.fst ∘ fun r =>
      (r, CatastroCompleteDownloader.descargar_todo_completo_steps (envOf r))) = id := rfl
  rw [hid, List.map_id]

/-- C8 (witness): the amended theorem applied to two distinct references in
the environment where the directory creations succeed and every caught step
body raises: the batch call returns one `(success, zip)` entry per
reference. -/
theorem procesar_lote_one_entry_per_reference_witness :
    CatastroCompleteDownloader.procesar_lote (fun _ => orchEnvAllRaise) ["REFA", "REFB"]
      = .ok (["REFA", "REFB"].map
          (fun r => (r, CatastroCompleteDownloader.descargar_todo_completo_steps
            ((fun _ => orchEnvAllRaise) r))))
    ∧ (["REFA", "REFB"].map
          (fun r => (r, CatastroCompleteDownloader.descargar_todo_completo_steps
            ((fun _ => orchEnvAllRaise) r)))).map Prod.fst
      = ["REFA", "REFB"] :=
  procesar_lote_one_entry_per_reference (fun _ => orchEnvAllRaise)
    ["REFA", "REFB"] (by decide) (fun _ _ => rfl)
